import Mathlib

/-!
Verification of the particle/starfield background renderer of
`src/script.js` (lines 92–159).

Shallow embedding conventions:
* JavaScript numbers are modelled as exact rationals (`ℚ`); every finite
  IEEE double is a rational, and none of the verified properties depends
  on rounding.  The two transcendental ingredients, `Math.PI` and
  `Math.sin`, are modelled by `Real.pi` and `Real.sin`, so the star
  twinkle phase lives in `ℝ` while every other field stays in `ℚ`.
* `Math.random()` is modelled by an explicit stream `rand : ℕ → ℚ` of
  values in `[0, 1)`, consumed left to right in source evaluation order.
* The per-frame callback `drawParticles` is split into its per-particle
  state updates (`dotStep`, `starStep`) and the pure render computations
  (`starDrawAlpha`, `parallaxOffset`, `starRenderPos`) it performs.
-/

namespace ScriptJs

/-- A dust particle: the object literal pushed on line 109 of
`src/script.js` (`type:'dot'`). -/
structure Dot where
  x : ℚ
  y : ℚ
  vx : ℚ
  vy : ℚ
  r : ℚ
  alpha : ℚ

/-- A star particle: the object literal pushed on lines 114–123 of
`src/script.js` (`type:'star'`). -/
structure Star where
  x : ℚ
  y : ℚ
  r : ℚ
  twinkle : ℝ
  twinkleSpeed : ℚ
  baseAlpha : ℚ
  parallax : ℚ

/-- The tagged union stored in the `particles` array. -/
inductive Particle
  | dot (d : Dot)
  | star (s : Star)

def Particle.isDot : Particle → Bool
  | .dot _ => true
  | .star _ => false

def Particle.isStar : Particle → Bool
  | .dot _ => false
  | .star _ => true

/-- The stored (anchor) position of a particle. -/
def Particle.pos : Particle → ℚ × ℚ
  | .dot d => (d.x, d.y)
  | .star s => (s.x, s.y)

/-- Line 109: `{type:'dot', x: Math.random()*canvas.width, y:
Math.random()*canvas.height, vx:(Math.random()-0.5)*0.3,
vy:(Math.random()-0.5)*0.6, r: Math.random()*2+0.2,
alpha: Math.random()*0.12+0.03}`, with `rand k`, `rand (k+1)`, … the
successive `Math.random()` results. -/
def mkDot (rand : ℕ → ℚ) (k : ℕ) (w h : ℚ) : Dot :=
  { x := rand k * w
    y := rand (k + 1) * h
    vx := (rand (k + 2) - 0.5) * 0.3
    vy := (rand (k + 3) - 0.5) * 0.6
    r := rand (k + 4) * 2 + 0.2
    alpha := rand (k + 5) * 0.12 + 0.03 }

/-- Lines 114–123: the star object literal; `twinkle:
Math.random()*Math.PI*2` is the only field whose value involves a
transcendental constant, hence lives in `ℝ`. -/
noncomputable def mkStar (rand : ℕ → ℚ) (k : ℕ) (w h : ℚ) : Star :=
  { x := rand k * w
    y := rand (k + 1) * h
    r := rand (k + 2) * 1.6 + 0.4
    twinkle := (rand (k + 3) : ℝ) * Real.pi * 2
    twinkleSpeed := rand (k + 4) * 0.035 + 0.005
    baseAlpha := rand (k + 5) * 0.8 + 0.15
    parallax := rand (k + 6) * 0.8 + 0.2 }

/-- Lines 100–125, `createParticles`: empties the array, computes
`dotCount = Math.max(30, Math.floor(area/140000))` and `starCount =
Math.max(70, Math.floor(area/60000))`, then pushes `dotCount` dots
followed by `starCount` stars.  A dot consumes 6 random values and a
star 7, in source order. -/
noncomputable def createParticles (rand : ℕ → ℚ) (w h : ℚ) : List Particle :=
  let area := w * h
  let dotCount := (max 30 ⌊area / 140000⌋).toNat
  let starCount := (max 70 ⌊area / 60000⌋).toNat
  ((List.range dotCount).map fun i => Particle.dot (mkDot rand (6 * i) w h)) ++
    ((List.range starCount).map fun i =>
      Particle.star (mkStar rand (6 * dotCount + 7 * i) w h))

/-- The global state owned by the particle subsystem: the canvas
dimensions (lines 93–95) and the `particles` array (line 99). -/
structure FieldState where
  width : ℚ
  height : ℚ
  particles : List Particle

/-- Line 95, `resizeCanvas` — the handler installed for the `resize`
event on line 96.  It updates `canvas.width` and `canvas.height` and
nothing else; in particular it does not touch the `particles` array. -/
def resizeCanvas (s : FieldState) (w h : ℚ) : FieldState :=
  { s with width := w, height := h }

/-- The initial state produced at script load (lines 96 and 126):
`resizeCanvas()` followed by `createParticles()` on the load-time
viewport dimensions. -/
noncomputable def initField (rand : ℕ → ℚ) (w h : ℚ) : FieldState :=
  { width := w, height := h, particles := createParticles rand w h }

/-- Lines 135–139, one axis of the dust update: the coordinate already
advanced by its velocity is wrapped by two sequential `if`s:
`if (c < -50) c = edge + 20; if (c > edge + 50) c = -20;`. -/
def wrapCoord (edge c : ℚ) : ℚ :=
  let c := if c < -50 then edge + 20 else c
  if c > edge + 50 then -20 else c

/-- Lines 135–139, the per-frame state update of one dust particle:
`p.x += p.vx; p.y += p.vy;` followed by the wraparound `if`s on each
axis.  Only the position fields are written. -/
def dotStep (w h : ℚ) (p : Dot) : Dot :=
  { p with x := wrapCoord w (p.x + p.vx), y := wrapCoord h (p.y + p.vy) }

/-- Line 143, the per-frame state update of one star particle:
`p.twinkle += p.twinkleSpeed;` — the only field written. -/
noncomputable def starStep (p : Star) : Star :=
  { p with twinkle := p.twinkle + (p.twinkleSpeed : ℝ) }

/-- Lines 143–145: the displayed opacity of a star this frame,
`a = Math.min(1, p.baseAlpha + Math.abs(Math.sin(p.twinkle)) * 0.6)`,
where `p.twinkle` has already been advanced by this frame's `+=`
(hence the `starStep`). -/
noncomputable def starDrawAlpha (p : Star) : ℝ :=
  min 1 ((p.baseAlpha : ℝ) + |Real.sin (starStep p).twinkle| * 0.6)

/-- Lines 148–149: the parallax displacement
`px = (mouseX / canvas.width - 0.5) * 30 * p.parallax` and likewise
`py` with `mouseY` and the height. -/
def parallaxOffset (w h mouseX mouseY par : ℚ) : ℚ × ℚ :=
  ((mouseX / w - 0.5) * 30 * par, (mouseY / h - 0.5) * 30 * par)

/-- Lines 152–153: a star is drawn at `(p.x + px, p.y + py)` — the
anchor plus the parallax offset, computed afresh each frame and never
written back into the particle. -/
def starRenderPos (w h mouseX mouseY : ℚ) (p : Star) : ℚ × ℚ :=
  (p.x + (mouseX / w - 0.5) * 30 * p.parallax,
   p.y + (mouseY / h - 0.5) * 30 * p.parallax)

/-- The state mutation one `drawParticles` frame applies to a single
particle (lines 133–155). -/
noncomputable def particleStep (w h : ℚ) : Particle → Particle
  | .dot d => .dot (dotStep w h d)
  | .star s => .star (starStep s)

/-- The state mutation of one whole `drawParticles` frame (lines
128–159): every particle is updated in place; the canvas dimensions and
the particle count are untouched. -/
noncomputable def drawParticlesStep (s : FieldState) : FieldState :=
  { s with particles := s.particles.map (particleStep s.width s.height) }

def countDot (ps : List Particle) : ℕ := ps.countP (Particle.isDot ·)

def countStar (ps : List Particle) : ℕ := ps.countP (Particle.isStar ·)

/- ------------------------------------------------------------------ -/
/- Helper lemmas shared by several claims.                            -/
/- ------------------------------------------------------------------ -/

theorem countDot_createParticles (rand : ℕ → ℚ) (w h : ℚ) :
    countDot (createParticles rand w h) = (max 30 ⌊w * h / 140000⌋).toNat := by
  simp [countDot, createParticles, List.countP_append, List.countP_map,
    Function.comp_def, Particle.isDot]

theorem countStar_createParticles (rand : ℕ → ℚ) (w h : ℚ) :
    countStar (createParticles rand w h) = (max 70 ⌊w * h / 60000⌋).toNat := by
  simp [countStar, createParticles, List.countP_append, List.countP_map,
    Function.comp_def, Particle.isStar]

theorem wrapCoord_eq (edge c : ℚ) :
    wrapCoord edge c =
      if c < -50 then edge + 20 else if c > edge + 50 then -20 else c := by
  unfold wrapCoord
  dsimp only
  by_cases h1 : c < -50
  · have h2 : ¬(edge + 20 > edge + 50) := by linarith
    simp only [if_pos h1, if_neg h2]
  · simp only [if_neg h1]

theorem toNat_max_cast (a b : ℤ) (ha : 0 ≤ a) : ((max a b).toNat : ℤ) = max a b :=
  Int.toNat_of_nonneg (le_trans ha (le_max_left a b))

/- ------------------------------------------------------------------ -/
/- Claims.                                                            -/
/- ------------------------------------------------------------------ -/

/-- C1, counterexample: the claim that a viewport-resize notification
discards and regenerates the particle population is false on the code.
The handler installed for the `resize` event (line 96) is `resizeCanvas`,
which only updates the canvas dimensions.  Starting from the load state
for a 1400×800 viewport, after a resize notification to 2800×1600 the
field still holds the 30 dust particles created at load, not the
max(30, ⌊2800·1600/140000⌋) = 32 freshly created ones the claim
requires, and the particle array is exactly the pre-resize one. -/
theorem c1_resize_counterexample :
    countDot ((resizeCanvas (initField (fun _ => 0) 1400 800) 2800 1600).particles)
        = 30 ∧
    (max 30 ⌊((2800 : ℚ) * 1600) / 140000⌋ : ℤ) = 32 ∧
    (resizeCanvas (initField (fun _ => 0) 1400 800) 2800 1600).particles =
      (initField (fun _ => 0) 1400 800).particles := by
  refine ⟨?_, by norm_num, rfl⟩
  show countDot (createParticles (fun _ => 0) 1400 800) = 30
  rw [countDot_createParticles]
  norm_num
  rfl

/-- C1, amended: a viewport-resize notification only updates the stored
canvas dimensions and leaves the particle population untouched (nothing
is added, removed or recreated); the population containing exactly
max(30, ⌊area/140000⌋) dust and max(70, ⌊area/60000⌋) star particles is
created only at script load, for the load-time dimensions. -/
theorem c1_resize_keeps_particles (s : FieldState) (w h : ℚ)
    (rand : ℕ → ℚ) (w0 h0 : ℚ) :
    (resizeCanvas s w h).particles = s.particles ∧
    (resizeCanvas s w h).width = w ∧
    (resizeCanvas s w h).height = h ∧
    (countDot (initField rand w0 h0).particles : ℤ) = max 30 ⌊w0 * h0 / 140000⌋ ∧
    (countStar (initField rand w0 h0).particles : ℤ) = max 70 ⌊w0 * h0 / 60000⌋ := by
  refine ⟨rfl, rfl, rfl, ?_, ?_⟩
  · show (countDot (createParticles rand w0 h0) : ℤ) = _
    rw [countDot_createParticles]
    exact toNat_max_cast 30 _ (by norm_num)
  · show (countStar (createParticles rand w0 h0) : ℤ) = _
    rw [countStar_createParticles]
    exact toNat_max_cast 70 _ (by norm_num)

/-- C2: immediately after the population is (re)generated for dimensions
`(w, h)`, the field holds exactly max(30, ⌊w·h/140000⌋) dust and
max(70, ⌊w·h/60000⌋) star particles; in particular 30 and 70 for
1400×800 and 32 and 74 for 2800×1600. -/
theorem c2_particle_counts (rand : ℕ → ℚ) (w h : ℚ) :
    (countDot (createParticles rand w h) : ℤ) = max 30 ⌊w * h / 140000⌋ ∧
    (countStar (createParticles rand w h) : ℤ) = max 70 ⌊w * h / 60000⌋ ∧
    countDot (createParticles rand 1400 800) = 30 ∧
    countStar (createParticles rand 1400 800) = 70 ∧
    countDot (createParticles rand 2800 1600) = 32 ∧
    countStar (createParticles rand 2800 1600) = 74 := by
  refine ⟨?_, ?_, ?_, ?_, ?_, ?_⟩
  · rw [countDot_createParticles]; exact toNat_max_cast 30 _ (by norm_num)
  · rw [countStar_createParticles]; exact toNat_max_cast 70 _ (by norm_num)
  · rw [countDot_createParticles]; norm_num; rfl
  · rw [countStar_createParticles]; norm_num; rfl
  · rw [countDot_createParticles]; norm_num; rfl
  · rw [countStar_createParticles]; norm_num; rfl

/-- C3: one tick advances a dust particle by its velocity and then wraps
each axis independently — a coordinate below −50 is sent to edge+20, one
above edge+50 to −20; in particular a dust particle at `x = width + 60`
with `vx = 0` is relocated to `x = −20` by one tick. -/
theorem c3_dust_wrap (w h : ℚ) (p : Dot) :
    ((dotStep w h p).x =
        if p.x + p.vx < -50 then w + 20
        else if p.x + p.vx > w + 50 then -20 else p.x + p.vx) ∧
    ((dotStep w h p).y =
        if p.y + p.vy < -50 then h + 20
        else if p.y + p.vy > h + 50 then -20 else p.y + p.vy) ∧
    (0 ≤ w → p.x = w + 60 → p.vx = 0 → (dotStep w h p).x = -20) := by
  refine ⟨wrapCoord_eq w _, wrapCoord_eq h _, ?_⟩
  intro hw hx hvx
  show wrapCoord w (p.x + p.vx) = -20
  rw [wrapCoord_eq, hx, hvx]
  have h1 : ¬(w + 60 + 0 < -50) := by linarith
  have h2 : w + 60 + 0 > w + 50 := by linarith
  rw [if_neg h1, if_pos h2]

theorem c3_dust_wrap_witness :
    (dotStep 100 100 { x := 160, y := 0, vx := 0, vy := 0, r := 1, alpha := 1 }).x
      = -20 :=
  (c3_dust_wrap 100 100 _).2.2 (by norm_num) (by norm_num) rfl


theorem wrapCoord_mem_box (edge c : ℚ) (he : 0 ≤ edge) :
    -50 ≤ wrapCoord edge c ∧ wrapCoord edge c ≤ edge + 50 := by
  rw [wrapCoord_eq]
  split_ifs with h1 h2 <;> constructor <;> linarith

/-- C4: whenever the wraparound branch fires on an axis, the wrapped
coordinate lands in [−20, edge+20] immediately afterwards; and after
every tick — hence across arbitrarily many ticks — a dust particle's
position stays inside the bounded box [−50, w+50] × [−50, h+50]
determined by the canvas dimensions. -/
theorem c4_dust_bounded (w h : ℚ) (hw : 0 ≤ w) (hh : 0 ≤ h) (p : Dot) :
    ((p.x + p.vx < -50 ∨ p.x + p.vx > w + 50) →
      -20 ≤ (dotStep w h p).x ∧ (dotStep w h p).x ≤ w + 20) ∧
    ((p.y + p.vy < -50 ∨ p.y + p.vy > h + 50) →
      -20 ≤ (dotStep w h p).y ∧ (dotStep w h p).y ≤ h + 20) ∧
    (∀ n : ℕ, 1 ≤ n →
      -50 ≤ ((dotStep w h)^[n] p).x ∧ ((dotStep w h)^[n] p).x ≤ w + 50 ∧
      -50 ≤ ((dotStep w h)^[n] p).y ∧ ((dotStep w h)^[n] p).y ≤ h + 50) := by
  have fire : ∀ edge c : ℚ, 0 ≤ edge → (c < -50 ∨ c > edge + 50) →
      -20 ≤ wrapCoord edge c ∧ wrapCoord edge c ≤ edge + 20 := by
    intro edge c he hc
    rw [wrapCoord_eq]
    rcases hc with hc | hc
    · rw [if_pos hc]; constructor <;> linarith
    · have h1 : ¬(c < -50) := by linarith
      rw [if_neg h1, if_pos hc]
      constructor <;> linarith
  refine ⟨fire w _ hw, fire h _ hh, ?_⟩
  intro n hn
  match n, hn with
  | Nat.succ m, _ =>
    rw [Function.iterate_succ_apply']
    set q := (dotStep w h)^[m] p
    have hx := wrapCoord_mem_box w (q.x + q.vx) hw
    have hy := wrapCoord_mem_box h (q.y + q.vy) hh
    exact ⟨hx.1, hx.2, hy.1, hy.2⟩

theorem c4_dust_bounded_witness :
    (-20 ≤ (dotStep 100 100 { x := 160, y := 0, vx := 0, vy := 0, r := 1, alpha := 1 }).x ∧
      (dotStep 100 100 { x := 160, y := 0, vx := 0, vy := 0, r := 1, alpha := 1 }).x ≤ 100 + 20) ∧
    (-50 ≤ ((dotStep 100 100)^[1] { x := 160, y := 0, vx := 0, vy := 0, r := 1, alpha := 1 }).x ∧
      ((dotStep 100 100)^[1] { x := 160, y := 0, vx := 0, vy := 0, r := 1, alpha := 1 }).x ≤ 100 + 50 ∧
      -50 ≤ ((dotStep 100 100)^[1] { x := 160, y := 0, vx := 0, vy := 0, r := 1, alpha := 1 }).y ∧
      ((dotStep 100 100)^[1] { x := 160, y := 0, vx := 0, vy := 0, r := 1, alpha := 1 }).y ≤ 100 + 50) :=
  ⟨(c4_dust_bounded 100 100 (by norm_num) (by norm_num) _).1 (Or.inr (by norm_num)),
   (c4_dust_bounded 100 100 (by norm_num) (by norm_num) _).2.2 1 (by norm_num)⟩

theorem starStep_iterate_speed (p : Star) (n : ℕ) :
    (starStep^[n] p).twinkleSpeed = p.twinkleSpeed := by
  induction n with
  | zero => rfl
  | succ m ih => rw [Function.iterate_succ_apply']; exact ih

theorem starStep_iterate_twinkle (p : Star) (n : ℕ) :
    (starStep^[n] p).twinkle = p.twinkle + n * (p.twinkleSpeed : ℝ) := by
  induction n with
  | zero => simp
  | succ m ih =>
    rw [Function.iterate_succ_apply']
    show (starStep^[m] p).twinkle + ((starStep^[m] p).twinkleSpeed : ℝ) = _
    rw [starStep_iterate_speed, ih]
    push_cast
    ring

/-- C5: each tick adds the star's twinkle speed to its twinkle phase and
never decreases or resets it; creation-time speeds lie in [0.005, 0.04]
and are strictly positive, so the phase strictly increases every tick
and grows beyond any bound, while the displayed brightness is the
function `starDrawAlpha` of the current phase, not a stored field. -/
theorem c5_twinkle_monotone (p : Star) (rand : ℕ → ℚ) (k : ℕ) (w h : ℚ) :
    (starStep p).twinkle = p.twinkle + (p.twinkleSpeed : ℝ) ∧
    (0 < p.twinkleSpeed → p.twinkle < (starStep p).twinkle) ∧
    (∀ n : ℕ, (starStep^[n] p).twinkle = p.twinkle + n * (p.twinkleSpeed : ℝ)) ∧
    (0 < p.twinkleSpeed → ∀ B : ℝ, ∃ n : ℕ, B < (starStep^[n] p).twinkle) ∧
    (0 ≤ rand (k + 4) → rand (k + 4) < 1 →
      0.005 ≤ (mkStar rand k w h).twinkleSpeed ∧
        (mkStar rand k w h).twinkleSpeed ≤ 0.04) := by
  refine ⟨rfl, ?_, starStep_iterate_twinkle p, ?_, ?_⟩
  · intro hs
    have hs' : (0 : ℝ) < (p.twinkleSpeed : ℝ) := by exact_mod_cast hs
    show p.twinkle < p.twinkle + (p.twinkleSpeed : ℝ)
    linarith
  · intro hs B
    have hs' : (0 : ℝ) < (p.twinkleSpeed : ℝ) := by exact_mod_cast hs
    obtain ⟨n, hn⟩ := exists_nat_gt ((B - p.twinkle) / (p.twinkleSpeed : ℝ))
    refine ⟨n, ?_⟩
    rw [starStep_iterate_twinkle]
    have := (div_lt_iff₀ hs').mp hn
    linarith
  · intro h0 h1
    show 0.005 ≤ rand (k + 4) * 0.035 + 0.005 ∧ rand (k + 4) * 0.035 + 0.005 ≤ 0.04
    constructor <;> nlinarith

theorem c5_twinkle_monotone_witness :
    ((⟨0, 0, 1, 0, 0.01, 0.5, 0.5⟩ : Star).twinkle
        < (starStep ⟨0, 0, 1, 0, 0.01, 0.5, 0.5⟩).twinkle) ∧
    (0.005 ≤ (mkStar (fun _ => 1/2) 0 1 1).twinkleSpeed ∧
      (mkStar (fun _ => 1/2) 0 1 1).twinkleSpeed ≤ 0.04) :=
  ⟨(c5_twinkle_monotone ⟨0, 0, 1, 0, 0.01, 0.5, 0.5⟩ (fun _ => 1/2) 0 1 1).2.1
      (by norm_num),
   (c5_twinkle_monotone ⟨0, 0, 1, 0, 0.01, 0.5, 0.5⟩ (fun _ => 1/2) 0 1 1).2.2.2.2
      (by norm_num) (by norm_num)⟩

/-- C6: a tick writes only the twinkle phase of a star — the anchor
position and every other creation-time attribute are unchanged after any
number of ticks — and the drawn position is the anchor plus the parallax
offset, recomputed from the pointer each frame and never written back. -/
theorem c6_star_anchor_immutable (p : Star) (w h mouseX mouseY : ℚ) :
    (starStep p).x = p.x ∧ (starStep p).y = p.y ∧
    (starStep p).r = p.r ∧ (starStep p).twinkleSpeed = p.twinkleSpeed ∧
    (starStep p).baseAlpha = p.baseAlpha ∧ (starStep p).parallax = p.parallax ∧
    (∀ n : ℕ, (starStep^[n] p).x = p.x ∧ (starStep^[n] p).y = p.y) ∧
    starRenderPos w h mouseX mouseY p =
      (p.x + (parallaxOffset w h mouseX mouseY p.parallax).1,
       p.y + (parallaxOffset w h mouseX mouseY p.parallax).2) := by
  refine ⟨rfl, rfl, rfl, rfl, rfl, rfl, ?_, rfl⟩
  intro n
  induction n with
  | zero => exact ⟨rfl, rfl⟩
  | succ m ih => rw [Function.iterate_succ_apply']; exact ih

/-- C7: the displayed star opacity is min(1, baseAlpha + |sin phase|·0.6)
with the phase taken after this tick's advance; it therefore never
exceeds 1, and a star with baseAlpha 0.9 at a phase whose sine is 1 is
displayed with opacity exactly 1. -/
theorem c7_star_alpha_clamped (p : Star) :
    starDrawAlpha p =
      min 1 ((p.baseAlpha : ℝ) + |Real.sin (starStep p).twinkle| * 0.6) ∧
    starDrawAlpha p ≤ 1 ∧
    (Real.sin (starStep p).twinkle = 1 → p.baseAlpha = 0.9 →
      starDrawAlpha p = 1) := by
  refine ⟨rfl, min_le_left _ _, ?_⟩
  intro hsin hb
  rw [starDrawAlpha, hsin, hb, abs_one, one_mul]
  rw [min_eq_left (by push_cast; norm_num)]

theorem c7_star_alpha_clamped_witness :
    starDrawAlpha ⟨0, 0, 1, Real.pi / 2 - ((0.01 : ℚ) : ℝ), 0.01, 0.9, 0.5⟩ = 1 :=
  (c7_star_alpha_clamped _).2.2
    (by
      have ht : (starStep ⟨0, 0, 1, Real.pi / 2 - ((0.01 : ℚ) : ℝ), 0.01, 0.9, 0.5⟩).twinkle
          = Real.pi / 2 := by
        show Real.pi / 2 - ((0.01 : ℚ) : ℝ) + ((0.01 : ℚ) : ℝ) = Real.pi / 2
        ring
      rw [ht]
      exact Real.sin_pi_div_two)
    rfl

/-- C8: the parallax offset is ((mouseX/width − 0.5)·30·parallax,
(mouseY/height − 0.5)·30·parallax); consequently, with the pointer at
the exact canvas center the offset is (0, 0) for every star regardless
of its parallax factor. -/
theorem c8_parallax_center (w h mouseX mouseY par : ℚ) :
    parallaxOffset w h mouseX mouseY par =
      ((mouseX / w - 0.5) * 30 * par, (mouseY / h - 0.5) * 30 * par) ∧
    (w ≠ 0 → h ≠ 0 → parallaxOffset w h (w / 2) (h / 2) par = (0, 0)) := by
  refine ⟨rfl, ?_⟩
  intro hw hh
  unfold parallaxOffset
  have e1 : w / 2 / w - 0.5 = 0 := by
    rw [div_div, mul_comm, ← div_div, div_self hw]
    norm_num
  have e2 : h / 2 / h - 0.5 = 0 := by
    rw [div_div, mul_comm, ← div_div, div_self hh]
    norm_num
  rw [e1, e2]
  norm_num

theorem c8_parallax_center_witness :
    parallaxOffset 2 2 (2 / 2) (2 / 2) 7 = (0, 0) :=
  (c8_parallax_center 2 2 0 0 7).2 (by norm_num) (by norm_num)

/-- C10: a tick writes only a dust particle's position — velocity,
radius and opacity are unchanged after any number of ticks — and the
creation-time velocities lie in [−0.15, 0.15) and [−0.3, 0.3). -/
theorem c10_dust_velocity_constant (w h : ℚ) (p : Dot) (rand : ℕ → ℚ) (k : ℕ) :
    ((dotStep w h p).vx = p.vx ∧ (dotStep w h p).vy = p.vy ∧
      (dotStep w h p).r = p.r ∧ (dotStep w h p).alpha = p.alpha) ∧
    (∀ n : ℕ, ((dotStep w h)^[n] p).vx = p.vx ∧ ((dotStep w h)^[n] p).vy = p.vy) ∧
    (0 ≤ rand (k + 2) → rand (k + 2) < 1 →
      -0.15 ≤ (mkDot rand k w h).vx ∧ (mkDot rand k w h).vx < 0.15) ∧
    (0 ≤ rand (k + 3) → rand (k + 3) < 1 →
      -0.3 ≤ (mkDot rand k w h).vy ∧ (mkDot rand k w h).vy < 0.3) := by
  refine ⟨⟨rfl, rfl, rfl, rfl⟩, ?_, ?_, ?_⟩
  · intro n
    induction n with
    | zero => exact ⟨rfl, rfl⟩
    | succ m ih => rw [Function.iterate_succ_apply']; exact ih
  · intro h0 h1
    show -0.15 ≤ (rand (k + 2) - 0.5) * 0.3 ∧ (rand (k + 2) - 0.5) * 0.3 < 0.15
    constructor <;> nlinarith
  · intro h0 h1
    show -0.3 ≤ (rand (k + 3) - 0.5) * 0.6 ∧ (rand (k + 3) - 0.5) * 0.6 < 0.3
    constructor <;> nlinarith

theorem c10_dust_velocity_constant_witness :
    ((dotStep 100 100 { x := 160, y := 0, vx := 3, vy := 4, r := 1, alpha := 1 }).vx = 3) ∧
    (-0.15 ≤ (mkDot (fun _ => 1/2) 0 100 100).vx ∧
      (mkDot (fun _ => 1/2) 0 100 100).vx < 0.15) :=
  ⟨(c10_dust_velocity_constant 100 100
      { x := 160, y := 0, vx := 3, vy := 4, r := 1, alpha := 1 } (fun _ => 1/2) 0).1.1,
   (c10_dust_velocity_constant 100 100
      { x := 160, y := 0, vx := 3, vy := 4, r := 1, alpha := 1 } (fun _ => 1/2) 0).2.2.1
      (by norm_num) (by norm_num)⟩

/-- The concrete random stream used to examine the degenerate zero-area
dimensions of C9. -/
def rand9 : ℕ → ℚ := fun i => if i ≤ 6 then 0 else 1/2

/-- C9, counterexample: dimensions with zero area do not put every
particle at one identical default position.  For a 0×500 viewport the
area is zero, yet the first two dust particles of the generated
population are created at (0, 0) and (0, 250): only the zero-width axis
collapses, the coordinate along the nonzero axis is still randomized
over [0, height). -/
theorem c9_zero_area_counterexample :
    Particle.dot (mkDot rand9 0 0 500) ∈ createParticles rand9 0 500 ∧
    Particle.dot (mkDot rand9 6 0 500) ∈ createParticles rand9 0 500 ∧
    Particle.pos (Particle.dot (mkDot rand9 0 0 500)) ≠
      Particle.pos (Particle.dot (mkDot rand9 6 0 500)) := by
  have hcount : 2 ≤ (max 30 ⌊(0 : ℚ) * 500 / 140000⌋).toNat := by
    norm_num
  refine ⟨?_, ?_, ?_⟩
  · unfold createParticles
    dsimp only
    exact List.mem_append_left _
      (List.mem_map.mpr ⟨0, List.mem_range.mpr (by omega), rfl⟩)
  · unfold createParticles
    dsimp only
    exact List.mem_append_left _
      (List.mem_map.mpr ⟨1, List.mem_range.mpr (by omega), rfl⟩)
  · norm_num [mkDot, Particle.pos, rand9, Prod.ext_iff]

/-- C9, amended: particle generation and the tick accept every numeric
input with no error branch; any dimensions with zero area yield the
floor counts (30 dust, 70 star particles); and when both dimensions are
zero, every particle is created at the identical default position
(0, 0) — with only one dimension zero, the coordinate along the nonzero
axis remains randomized. -/
theorem c9_zero_area_amended (rand : ℕ → ℚ) (w h : ℚ) (hwh : w * h = 0) :
    countDot (createParticles rand w h) = 30 ∧
    countStar (createParticles rand w h) = 70 ∧
    (∀ p ∈ createParticles rand 0 0, Particle.pos p = (0, 0)) := by
  refine ⟨?_, ?_, ?_⟩
  · rw [countDot_createParticles, hwh]; norm_num; rfl
  · rw [countStar_createParticles, hwh]; norm_num; rfl
  · intro p hp
    unfold createParticles at hp
    dsimp only at hp
    rcases List.mem_append.mp hp with hmem | hmem <;>
      obtain ⟨i, hi, rfl⟩ := List.mem_map.mp hmem <;>
      simp [mkDot, mkStar, Particle.pos]

theorem c9_zero_area_amended_witness :
    countDot (createParticles (fun _ => 0) 0 500) = 30 ∧
    countStar (createParticles (fun _ => 0) 0 500) = 70 ∧
    (∀ p ∈ createParticles (fun _ => 0) 0 0, Particle.pos p = (0, 0)) :=
  c9_zero_area_amended (fun _ => 0) 0 500 (by norm_num)

end ScriptJs
